import Mathlib

set_option maxRecDepth 10000

/-!
Shallow embedding of `src/main.py` (a FastAPI service that ingests a sales
CSV, answers questions about it through an Ollama backend, and reports
health).  The three HTTP handlers `upload_file`, `ask` and `health_check`
are modelled as pure functions over an explicit environment (the external
collaborators: the Ollama backend, the tabulate renderer availability, the
outcome of the file write) and an explicit state (the content of the
persisted file at `CSV_PATH`, plus a ghost log of the `ollama.generate`
calls issued, used to state "the backend is (not) invoked" properties).

External library behaviour (pandas `read_csv` / `to_csv` / `to_markdown` /
`to_string`, UTF-8 decoding) is modelled executably: the CSV codec is a
concrete parser/serializer over characters, and the fallible externals
(UTF-8 decode, `ollama.generate`, `ollama.list`, `to_csv`) are represented
by `Except`-valued inputs carrying the exception text `str(e)` on failure.
-/

namespace Predify

/-- Split a character list on a separator character.  Models the line and
field splitting performed by `pandas.read_csv` on simple (quote-free)
input: `splitOnChar sep l` returns the maximal chunks of `l` between
occurrences of `sep`.  Always returns a nonempty list. -/
def splitOnChar (sep : Char) : List Char → List (List Char)
  | [] => [[]]
  | c :: cs =>
    if c = sep then [] :: splitOnChar sep cs
    else
      match splitOnChar sep cs with
      | [] => [[c]]
      | g :: gs => (c :: g) :: gs

/-- Interleave a separator character between chunks (inverse of
`splitOnChar` on separator-free chunks). -/
def interSep (sep : Char) : List (List Char) → List Char
  | [] => []
  | [x] => x
  | x :: y :: ys => x ++ sep :: interSep sep (y :: ys)

/-- A parsed table: the header row (column names, in file order) and the
data rows, exactly what `pandas.read_csv` produces from a simple CSV. -/
structure Csv where
  header : List String
  rows : List (List String)
deriving DecidableEq, Repr

/-- Parse one CSV line into its comma-separated fields. -/
def parseLine (l : List Char) : List String :=
  (splitOnChar ',' l).map String.mk

/-- Model of `pandas.read_csv` on a decoded UTF-8 string: split into
newline-separated lines (blank lines skipped, as pandas does by default),
fail (`EmptyDataError`) when no line remains, otherwise take the first
line as the header and the rest as rows. -/
def parseCsv (s : String) : Option Csv :=
  match (splitOnChar '\n' s.data).filter (fun l => !l.isEmpty) with
  | [] => none
  | h :: t => some ⟨parseLine h, t.map parseLine⟩

/-- Render one row as a CSV line. -/
def lineData (r : List String) : List Char :=
  interSep ',' (r.map String.data)

/-- Model of `DataFrame.to_csv(index=False)`: header line then each row,
every line terminated by a newline. -/
def to_csv (c : Csv) : String :=
  String.mk ((lineData c.header :: c.rows.map lineData).foldr
    (fun l acc => l ++ '\n' :: acc) [])

/-- Model of `DataFrame.head()`: the table restricted to its first 5 rows. -/
def head (c : Csv) : Csv :=
  ⟨c.header, c.rows.take 5⟩

/-- Join strings with a separator string. -/
def strJoin (sep : String) : List String → String
  | [] => ""
  | [x] => x
  | x :: y :: ys => x ++ sep ++ strJoin sep (y :: ys)

/-- Model of `DataFrame.to_markdown()` (tabulate pipe grid): header and
rows rendered between `|` delimiters with a separator rule. -/
def to_markdown (c : Csv) : String :=
  "| " ++ strJoin " | " c.header ++ " |\n|---|\n"
    ++ strJoin "" (c.rows.map (fun r => "| " ++ strJoin " | " r ++ " |\n"))

/-- Model of `DataFrame.to_string()` (the plain-text fallback rendering):
header and rows joined by spaces. -/
def to_string_render (c : Csv) : String :=
  strJoin "\n" (strJoin "  " c.header :: c.rows.map (strJoin "  "))

/-- The required column set `{date, product, quantity, total}` of the
upload validation, as a list fixing one iteration order for the Python
set. -/
def required_columns : List String :=
  ["date", "product", "quantity", "total"]

/-- `required_columns - set(df.columns)`: the required columns absent from
the parsed header. -/
def missingOf (cols : List String) : List String :=
  required_columns.filter (fun c => !(decide (c ∈ cols)))

/-- Python `repr` of a set of strings, as interpolated into the
`Colunas faltando` message: quoted names between braces. -/
def setRepr (l : List String) : String :=
  "\x7b" ++ strJoin ", " (l.map (fun c => "'" ++ c ++ "'")) ++ "\x7d"

/-- The model name constant `OLLAMA_MODEL = "phi3"`. -/
def OLLAMA_MODEL : String := "phi3"

/-- One `ollama.generate` invocation as recorded in the ghost call log:
the model name, the prompt and the decoding temperature passed in
`options`. -/
structure GenCall where
  model : String
  prompt : String
  temperature : Nat
deriving DecidableEq, Repr

/-- The external world the handlers interact with:
`generate model prompt temperature` is the Ollama generate call (error =
the exception's text), `listModels` the Ollama list call returning model
names, `installResult` the outcome of the `install_missing_dependencies`
step at the top of the `/ask` handler (error = the text of the
`CalledProcessError`/`FileNotFoundError` raised when tabulate is absent
and `pip install tabulate` fails), `tabulateAvailable` whether
`DataFrame.to_markdown` succeeds (the tabulate dependency is importable),
`writeResult` the outcome of `df.to_csv(CSV_PATH)` (error = the
exception's text). -/
structure Env where
  generate : String → String → Nat → Except String String
  listModels : Except String (List String)
  installResult : Except String Unit
  tabulateAvailable : Bool
  writeResult : Except String Unit

/-- Server state: the content of the file persisted at `CSV_PATH` (none =
no file exists), plus the ghost log of `ollama.generate` calls issued so
far. -/
structure St where
  file : Option String
  calls : List GenCall
deriving DecidableEq, Repr

/-- The `/health` success payload: the three boolean status fields. -/
structure HealthStatus where
  csv_loaded : Bool
  ollama_running : Bool
  model_available : Bool
deriving DecidableEq, Repr

/-- An HTTP response of one of the three endpoints: an upload success
body `{message, columns}`, an ask success body `{question, answer}`, a
health body, or an `HTTPException` with status code and detail. -/
inductive Response where
  | uploadOk (message : String) (columns : List String)
  | askOk (question : String) (answer : String)
  | health (s : HealthStatus)
  | error (status : Nat) (detail : String)
deriving DecidableEq, Repr

/-- An incoming request: an upload whose body is the UTF-8 decode result
of the uploaded bytes (error = the `UnicodeDecodeError` text), an ask with
its form question, or a health probe. -/
inductive Request where
  | upload (body : Except String String)
  | ask (q : String)
  | health
deriving Repr

/-- `get_ollama_response`: calls `ollama.generate` with `OLLAMA_MODEL`,
the prompt, and `options={'temperature': 0}`; on any backend exception
logs it and raises `HTTPException(500, "Erro no servidor de modelos")`. -/
def get_ollama_response (env : Env) (prompt : String) : Except (Nat × String) String :=
  match env.generate OLLAMA_MODEL prompt 0 with
  | .ok r => .ok r
  | .error _ => .error (500, "Erro no servidor de modelos")

/-- The `/upload` handler: decode the body as UTF-8, parse it with
`pandas.read_csv`, reject (ValueError) when required columns are missing,
otherwise overwrite `CSV_PATH` with `df.to_csv(index=False)` and return
the column list; every exception in the handler is caught and re-raised as
`HTTPException(400, detail=str(e))`. -/
def upload_file (env : Env) (body : Except String String) (st : St) : Response × St :=
  match body with
  | .error m => (.error 400 m, st)
  | .ok contents =>
    match parseCsv contents with
    | none => (.error 400 "No columns to parse from file", st)
    | some df =>
      if missingOf df.header = [] then
        match env.writeResult with
        | .error m => (.error 400 m, st)
        | .ok _ =>
          (.uploadOk "Arquivo salvo com sucesso" df.header,
           { st with file := some (to_csv df) })
      else
        (.error 400 ("Colunas faltando: " ++ setRepr (missingOf df.header)), st)

/-- The data preview embedded in the prompt: `df.head().to_markdown()`
when tabulate is available, with `df.head().to_string()` as the fallback
of the source's try/except. -/
def previewOf (env : Env) (df : Csv) : String :=
  if env.tabulateAvailable then to_markdown (head df) else to_string_render (head df)

/-- The f-string `context` of the `/ask` handler, with the preview and the
question interpolated. -/
def promptOf (data_preview question : String) : String :=
  "\n        Analise estes dados de vendas:\n        " ++ data_preview
    ++ "\n\n        Pergunta: " ++ question
    ++ "\n        Responda com valores exatos quando possível.\n        "

/-- `install_missing_dependencies`: tries `import tabulate` and, when
that fails, runs `pip install tabulate` with `check=True`.  Only its
fallibility is modelled: the step either returns or raises an exception
that no handler catches. -/
def install_missing_dependencies (env : Env) : Except String Unit :=
  env.installResult

/-- The `/ask` handler: first runs `install_missing_dependencies()`,
whose uncaught exception escapes the handler — FastAPI's middleware turns
it into the fixed 500 `Internal Server Error` response (the raise happens
before the file-existence check and outside the handler's try).  Then:
404 when no file exists at `CSV_PATH`; otherwise read and parse the
persisted file (any failure there is the generic 500
`Erro ao processar a pergunta`), build the prompt from the head preview
and the question, and call `get_ollama_response`, whose `HTTPException`
is re-raised as-is.  The issued generate call is appended to the ghost
log. -/
def ask (env : Env) (q : String) (st : St) : Response × St :=
  match install_missing_dependencies env with
  | .error _ => (.error 500 "Internal Server Error", st)
  | .ok _ =>
  match st.file with
  | none => (.error 404 "Arquivo não encontrado. Faça upload primeiro.", st)
  | some content =>
    match parseCsv content with
    | none => (.error 500 "Erro ao processar a pergunta", st)
    | some df =>
      let ctx := promptOf (previewOf env df) q
      let st2 : St := { st with calls := st.calls ++ [⟨OLLAMA_MODEL, ctx, 0⟩] }
      match get_ollama_response env ctx with
      | .ok answer => (.askOk q answer, st2)
      | .error e => (.error e.1 e.2, st2)

/-- The `/health` handler: builds the status object with `csv_loaded` from
file existence and both backend fields false, then tries `ollama.list()`;
on success sets `ollama_running` and whether any listed model name equals
`OLLAMA_MODEL`; any listing exception is swallowed (`except: pass`),
leaving the false defaults. -/
def health_check (env : Env) (st : St) : Response × St :=
  match env.listModels with
  | .ok models =>
    (.health ⟨st.file.isSome, true, models.any (fun m => m == OLLAMA_MODEL)⟩, st)
  | .error _ =>
    (.health ⟨st.file.isSome, false, false⟩, st)

/-- Dispatch one request to its handler. -/
def handle (env : Env) (req : Request) (st : St) : Response × St :=
  match req with
  | .upload body => upload_file env body st
  | .ask q => ask env q st
  | .health => health_check env st

/-- `sub` occurs as a contiguous substring of `s`. -/
def containsSub (s sub : String) : Prop :=
  ∃ a b, s = a ++ (sub ++ b)

/-- A row whose rendered CSV line is nonempty and whose fields contain no
separator characters: the rows for which the CSV codec round-trips. -/
def goodRow (r : List String) : Bool :=
  !r.isEmpty && !(lineData r).isEmpty
    && r.all (fun f => f.data.all (fun ch => !(ch = ',') && !(ch = '\n')))

/-- A table the CSV codec round-trips: header and every row are good. -/
def wellFormed (c : Csv) : Bool :=
  goodRow c.header && c.rows.all goodRow

/-! ### Substring lemmas for the error-message and prompt claims -/

theorem containsSub_appendLeft {s sub : String} (p : String)
    (h : containsSub s sub) : containsSub (p ++ s) sub := by
  obtain ⟨a, b, rfl⟩ := h
  exact ⟨p ++ a, b, by simp only [String.append_assoc]⟩

theorem containsSub_appendRight {s sub : String} (q : String)
    (h : containsSub s sub) : containsSub (s ++ q) sub := by
  obtain ⟨a, b, rfl⟩ := h
  exact ⟨a, b ++ q, by simp only [String.append_assoc]⟩

theorem containsSub_strJoin_quoted (sep : String) :
    ∀ (l : List String) (c : String), c ∈ l →
      containsSub (strJoin sep (l.map (fun x => "'" ++ x ++ "'"))) c
  | [], c, h => absurd h (List.not_mem_nil c)
  | [x], c, h => by
    rcases List.mem_singleton.mp h with rfl
    exact ⟨"'", "'", by simp only [List.map_cons, List.map_nil, strJoin, String.append_assoc]⟩
  | x :: y :: ys, c, h => by
    have hrec : strJoin sep ((x :: y :: ys).map (fun x => "'" ++ x ++ "'"))
        = ("'" ++ x ++ "'" ++ sep) ++ strJoin sep ((y :: ys).map (fun x => "'" ++ x ++ "'")) := by
      simp only [List.map_cons, strJoin, String.append_assoc]
    rcases List.mem_cons.mp h with rfl | hmem
    · exact ⟨"'", "'" ++ sep ++ strJoin sep ((y :: ys).map (fun x => "'" ++ x ++ "'")),
        by rw [hrec]; simp only [String.append_assoc]⟩
    · rw [hrec]
      exact containsSub_appendLeft _ (containsSub_strJoin_quoted sep (y :: ys) c hmem)

theorem containsSub_setRepr {l : List String} {c : String} (h : c ∈ l) :
    containsSub (setRepr l) c := by
  unfold setRepr
  exact containsSub_appendRight _
    (containsSub_appendLeft _ (containsSub_strJoin_quoted ", " l c h))

/-! ### Round-trip of the CSV codec (`to_csv` then `read_csv`) -/

theorem splitOnChar_no_sep (sep : Char) :
    ∀ (l : List Char), sep ∉ l → splitOnChar sep l = [l]
  | [], _ => rfl
  | c :: cs, h => by
    have hc : ¬ c = sep := fun hcs => h (hcs ▸ List.mem_cons_self c cs)
    have hcs : sep ∉ cs := fun hm => h (List.mem_cons_of_mem c hm)
    simp only [splitOnChar, if_neg hc, splitOnChar_no_sep sep cs hcs]

theorem splitOnChar_append (sep : Char) :
    ∀ (l rest : List Char), sep ∉ l →
      splitOnChar sep (l ++ sep :: rest) = l :: splitOnChar sep rest
  | [], rest, _ => by simp [splitOnChar]
  | c :: cs, rest, h => by
    have hc : ¬ c = sep := fun hcs => h (hcs ▸ List.mem_cons_self c cs)
    have hcs : sep ∉ cs := fun hm => h (List.mem_cons_of_mem c hm)
    simp only [List.cons_append, splitOnChar, if_neg hc, List.append_eq,
      splitOnChar_append sep cs rest hcs]

theorem mem_interSep (sep ch : Char) :
    ∀ (parts : List (List Char)), ch ∈ interSep sep parts →
      ch = sep ∨ ∃ p ∈ parts, ch ∈ p
  | [], h => absurd h (List.not_mem_nil ch)
  | [x], h => Or.inr ⟨x, List.mem_singleton_self x, h⟩
  | x :: y :: ys, h => by
    rcases List.mem_append.mp h with hx | htail
    · exact Or.inr ⟨x, List.mem_cons_self x _, hx⟩
    · rcases List.mem_cons.mp htail with rfl | hrest
      · exact Or.inl rfl
      · rcases mem_interSep sep ch (y :: ys) hrest with hs | ⟨p, hp, hcp⟩
        · exact Or.inl hs
        · exact Or.inr ⟨p, List.mem_cons_of_mem x hp, hcp⟩

theorem splitOnChar_interSep (sep : Char) :
    ∀ (parts : List (List Char)), parts ≠ [] → (∀ p ∈ parts, sep ∉ p) →
      splitOnChar sep (interSep sep parts) = parts
  | [], hne, _ => absurd rfl hne
  | [x], _, hsep => splitOnChar_no_sep sep x (hsep x (List.mem_singleton_self x))
  | x :: y :: ys, _, hsep => by
    have hx : sep ∉ x := hsep x (List.mem_cons_self x _)
    have hrest : ∀ p ∈ y :: ys, sep ∉ p := fun p hp => hsep p (List.mem_cons_of_mem x hp)
    simp only [interSep, splitOnChar_append sep x _ hx,
      splitOnChar_interSep sep (y :: ys) (List.cons_ne_nil y ys) hrest]

theorem splitOnChar_foldr (sep : Char) :
    ∀ (lines : List (List Char)), (∀ l ∈ lines, sep ∉ l) →
      splitOnChar sep (lines.foldr (fun l acc => l ++ sep :: acc) []) = lines ++ [[]]
  | [], _ => rfl
  | l :: ls, h => by
    have hl : sep ∉ l := h l (List.mem_cons_self l ls)
    have hls : ∀ x ∈ ls, sep ∉ x := fun x hx => h x (List.mem_cons_of_mem l hx)
    simp only [List.foldr_cons, splitOnChar_append sep l _ hl,
      splitOnChar_foldr sep ls hls, List.cons_append]

/-- Unfolding of `goodRow` into its three propositional components. -/
theorem goodRow_iff {r : List String} : goodRow r = true ↔
    r ≠ [] ∧ (lineData r).isEmpty = false
      ∧ ∀ f ∈ r, ∀ ch ∈ f.data, ¬ ch = ',' ∧ ¬ ch = '\n' := by
  simp [goodRow, List.all_eq_true, List.isEmpty_eq_false, and_assoc]

theorem parseLine_lineData {r : List String} (hr : goodRow r = true) :
    parseLine (lineData r) = r := by
  obtain ⟨hne, _, hfields⟩ := goodRow_iff.mp hr
  have hnosep : ∀ p ∈ r.map String.data, ',' ∉ p := by
    intro p hp hcp
    obtain ⟨f, hf, rfl⟩ := List.mem_map.mp hp
    exact (hfields f hf ',' hcp).1 rfl
  have hmapne : r.map String.data ≠ [] := by
    simpa using hne
  simp only [parseLine, lineData, splitOnChar_interSep ',' (r.map String.data) hmapne hnosep,
    List.map_map]
  have hmk : String.mk ∘ String.data = id := funext fun s => rfl
  rw [hmk, List.map_id]

theorem no_newline_lineData {r : List String} (hr : goodRow r = true) :
    '\n' ∉ lineData r := by
  intro hmem
  obtain ⟨_, _, hfields⟩ := goodRow_iff.mp hr
  rcases mem_interSep ',' '\n' (r.map String.data) hmem with hc | ⟨p, hp, hcp⟩
  · exact absurd hc (by decide)
  · obtain ⟨f, hf, rfl⟩ := List.mem_map.mp hp
    exact (hfields f hf '\n' hcp).2 rfl

/-- A well-formed table survives the round trip through `to_csv` and
`read_csv`: what `/ask` later reads back from the persisted file is
exactly the table the upload parsed. -/
theorem parseCsv_to_csv {c : Csv} (h : wellFormed c = true) :
    parseCsv (to_csv c) = some c := by
  simp only [wellFormed, Bool.and_eq_true, List.all_eq_true] at h
  obtain ⟨hheader, hrows⟩ := h
  have hlines : ∀ l ∈ lineData c.header :: c.rows.map lineData, '\n' ∉ l := by
    intro l hl
    rcases List.mem_cons.mp hl with rfl | hmem
    · exact no_newline_lineData hheader
    · obtain ⟨r, hr, rfl⟩ := List.mem_map.mp hmem
      exact no_newline_lineData (hrows r hr)
  have hnonempty : ∀ l ∈ lineData c.header :: c.rows.map lineData, (!l.isEmpty) = true := by
    intro l hl
    rcases List.mem_cons.mp hl with rfl | hmem
    · rw [(goodRow_iff.mp hheader).2.1]
      rfl
    · obtain ⟨r, hr, rfl⟩ := List.mem_map.mp hmem
      rw [(goodRow_iff.mp (hrows r hr)).2.1]
      rfl
  have hsplit := splitOnChar_foldr '\n' (lineData c.header :: c.rows.map lineData) hlines
  have hfilter : ((lineData c.header :: c.rows.map lineData) ++ [[]]).filter
      (fun l => !l.isEmpty) = lineData c.header :: c.rows.map lineData := by
    rw [List.filter_append, List.filter_eq_self.mpr hnonempty]
    simp [List.filter]
  have hrowsmap : (c.rows.map lineData).map parseLine = c.rows := by
    rw [List.map_map]
    have := List.map_congr_left
      (f := parseLine ∘ lineData) (g := id)
      (fun r hr => parseLine_lineData (hrows r hr))
    rw [this, List.map_id]
  simp only [parseCsv, to_csv, hsplit, hfilter]
  rw [parseLine_lineData hheader, hrowsmap]

/-! ### Concrete fixtures used by the witness theorems -/

/-- A well-behaved external world: the backend answers, lists `phi3`,
the dependency-install step returns, tabulate is importable, the file
write succeeds. -/
def defaultEnv : Env :=
  { generate := fun _ _ _ => .ok "A resposta é 50.0"
    listModels := .ok ["phi3"]
    installResult := .ok ()
    tabulateAvailable := true
    writeResult := .ok () }

/-- Like `defaultEnv` but the Ollama generate call raises. -/
def genFailEnv : Env :=
  { defaultEnv with generate := fun _ _ _ => .error "connection refused" }

/-- Like `defaultEnv` but tabulate is absent and the request-path
`pip install tabulate` raises. -/
def installFailEnv : Env :=
  { defaultEnv with
    installResult := .error "Command pip install tabulate returned non-zero exit status 1." }

/-- The spec's concrete scenario upload body. -/
def sampleUpload : String := "date,product,quantity,total\n2024-01-01,Widget,5,50.0"

/-- The table `sampleUpload` parses to. -/
def sampleCsv : Csv :=
  ⟨["date", "product", "quantity", "total"], [["2024-01-01", "Widget", "5", "50.0"]]⟩

/-- State before any upload: no persisted file, no backend calls issued. -/
def emptySt : St := ⟨none, []⟩

/-- State after a successful upload of `sampleUpload`. -/
def loadedSt : St := ⟨some (to_csv sampleCsv), []⟩

/-! ### Claim theorems -/

/-- C1: uploading a file whose body decodes as UTF-8 and parses as a CSV
whose header contains all of `date`, `product`, `quantity`, `total`
succeeds (the file write going through), and the returned `columns` list
is exactly the parsed header's column names in their original order. -/
theorem upload_success_columns_exact (env : Env) (st : St) (s : String) (csv : Csv)
    (hparse : parseCsv s = some csv)
    (hreq : ∀ c ∈ required_columns, c ∈ csv.header)
    (hw : env.writeResult = .ok ()) :
    (handle env (.upload (.ok s)) st).1
      = .uploadOk "Arquivo salvo com sucesso" csv.header := by
  have hm : missingOf csv.header = [] := by
    simp only [missingOf, List.filter_eq_nil_iff, Bool.not_eq_true', decide_eq_false_iff_not,
      not_not]
    exact hreq
  simp [handle, upload_file, hparse, hm, hw]

theorem upload_success_columns_exact_witness :
    (handle defaultEnv (.upload (.ok sampleUpload)) emptySt).1
      = .uploadOk "Arquivo salvo com sucesso" sampleCsv.header :=
  upload_success_columns_exact defaultEnv emptySt sampleUpload sampleCsv
    (by decide) (by decide) rfl

/-- C2: uploading a CSV whose parsed header misses at least one required
column fails with status 400, the detail message names every missing
column, and the persisted state is left completely unchanged. -/
theorem upload_missing_columns_400 (env : Env) (st : St) (s : String) (csv : Csv)
    (hparse : parseCsv s = some csv)
    (hmiss : missingOf csv.header ≠ []) :
    (handle env (.upload (.ok s)) st).1
      = .error 400 ("Colunas faltando: " ++ setRepr (missingOf csv.header))
    ∧ (handle env (.upload (.ok s)) st).2 = st
    ∧ ∀ c ∈ missingOf csv.header,
        containsSub ("Colunas faltando: " ++ setRepr (missingOf csv.header)) c := by
  refine ⟨?_, ?_, ?_⟩
  · simp [handle, upload_file, hparse, hmiss]
  · simp [handle, upload_file, hparse, hmiss]
  · intro c hc
    exact containsSub_appendLeft _ (containsSub_setRepr hc)

theorem upload_missing_columns_400_witness :
    containsSub ("Colunas faltando: "
      ++ setRepr (missingOf ["date", "product", "quantity"])) "total" :=
  (upload_missing_columns_400 defaultEnv emptySt "date,product,quantity\n2024-01-01,Widget,5"
      ⟨["date", "product", "quantity"], [["2024-01-01", "Widget", "5"]]⟩
      (by decide) (by decide)).2.2 "total" (by decide)

/-- C3 counterexample: `install_missing_dependencies()` runs before the
file-existence check (src/main.py line 71 precedes line 73) and outside
the handler's try, so when tabulate is absent and the request-path
`pip install` raises, an ask with no persisted file fails with the
framework's 500 `Internal Server Error`, not with 404. -/
theorem ask_install_failure_500 :
    (handle installFailEnv (.ask "Qual o total?") emptySt).1
      = .error 500 "Internal Server Error"
    ∧ (handle installFailEnv (.ask "Qual o total?") emptySt).1
      ≠ .error 404 "Arquivo não encontrado. Faça upload primeiro." :=
  ⟨rfl, by decide⟩

/-- C3 (amended): asking a question while no file is persisted fails with
404 provided the dependency-installation step at the top of the handler
does not raise; in every case (install raising included) the inference
backend's generate call is never invoked. -/
theorem ask_404_no_backend_call (env : Env) (q : String) (st : St)
    (h : st.file = none) :
    (env.installResult = .ok () →
      (handle env (.ask q) st).1
        = .error 404 "Arquivo não encontrado. Faça upload primeiro.")
    ∧ (handle env (.ask q) st).2.calls = st.calls := by
  constructor
  · intro hinst
    simp [handle, ask, install_missing_dependencies, hinst, h]
  · cases hi : env.installResult with
    | ok u => simp [handle, ask, install_missing_dependencies, hi, h]
    | error e => simp [handle, ask, install_missing_dependencies, hi]

theorem ask_404_no_backend_call_witness :
    (handle defaultEnv (.ask "Qual o total?") emptySt).1
      = .error 404 "Arquivo não encontrado. Faça upload primeiro." :=
  (ask_404_no_backend_call defaultEnv "Qual o total?" emptySt rfl).1 rfl

/-- C4 counterexample: a failing upload whose error is NOT a validation
error — here a UTF-8 decode failure — surfaces the internal exception's
text verbatim as the 400 detail (the handler re-raises
`HTTPException(400, detail=str(e))` for every exception), so the detail
does contain the internal error text, contrary to the claim. -/
theorem upload_error_detail_leak :
    (handle defaultEnv
        (.upload (.error "utf-8 codec cant decode byte 0xff in position 0: invalid start byte"))
        emptySt).1
      = .error 400 "utf-8 codec cant decode byte 0xff in position 0: invalid start byte"
    ∧ containsSub "utf-8 codec cant decode byte 0xff in position 0: invalid start byte"
        "utf-8 codec cant decode byte 0xff in position 0: invalid start byte" :=
  ⟨rfl, "", "", by decide⟩

/-- C4 (amended): on the query endpoint every error detail is one of the
four fixed generic messages (the 404 text, the two handler 500 texts, and
the framework's `Internal Server Error` for a raising dependency
install), never the internal exception's text; but on the upload endpoint
every caught exception — here a UTF-8 decode failure carrying message `m`
— surfaces `str(e)` verbatim as the 400 detail. -/
theorem error_message_policy (env : Env) (st : St) (q m : String) :
    (handle env (.upload (.error m)) st).1 = .error 400 m
    ∧ ∀ code d, (handle env (.ask q) st).1 = .error code d →
        d = "Arquivo não encontrado. Faça upload primeiro."
        ∨ d = "Erro no servidor de modelos"
        ∨ d = "Erro ao processar a pergunta"
        ∨ d = "Internal Server Error" := by
  refine ⟨rfl, ?_⟩
  intro code d h
  cases hi : env.installResult with
  | error e =>
    simp [handle, ask, install_missing_dependencies, hi] at h
    exact Or.inr (Or.inr (Or.inr h.2.symm))
  | ok u =>
  cases hf : st.file with
  | none =>
    simp [handle, ask, install_missing_dependencies, hi, hf] at h
    exact Or.inl h.2.symm
  | some content =>
    cases hp : parseCsv content with
    | none =>
      simp [handle, ask, install_missing_dependencies, hi, hf, hp] at h
      exact Or.inr (Or.inr (Or.inl h.2.symm))
    | some df =>
      cases hg : env.generate OLLAMA_MODEL (promptOf (previewOf env df) q) 0 with
      | ok r =>
        simp [handle, ask, install_missing_dependencies, hi, hf, hp,
          get_ollama_response, hg] at h
      | error e =>
        simp [handle, ask, install_missing_dependencies, hi, hf, hp,
          get_ollama_response, hg] at h
        exact Or.inr (Or.inl h.2.symm)

theorem error_message_policy_witness :
    ("Erro no servidor de modelos" = "Arquivo não encontrado. Faça upload primeiro."
    ∨ "Erro no servidor de modelos" = "Erro no servidor de modelos"
    ∨ "Erro no servidor de modelos" = "Erro ao processar a pergunta"
    ∨ "Erro no servidor de modelos" = "Internal Server Error") :=
  (error_message_policy genFailEnv loadedSt "Qual o total?" "boom").2 500
    "Erro no servidor de modelos" (by decide)

/-- C5: a second successful upload fully overwrites the persisted file
with exactly the second table's serialization — independent of whatever
the first upload or the initial state left there — and a subsequent ask
(its dependency-install step returning) reads back exactly that table and
prompts the backend from its rows alone. -/
theorem upload_overwrites_previous (env1 env2 env3 : Env)
    (b1 : Except String String) (s2 q : String) (csv2 : Csv) (st : St)
    (hparse : parseCsv s2 = some csv2)
    (hm : missingOf csv2.header = [])
    (hw : env2.writeResult = .ok ())
    (hwf : wellFormed csv2 = true)
    (hinst : env3.installResult = .ok ()) :
    (handle env2 (.upload (.ok s2)) ((handle env1 (.upload b1) st).2)).2.file
      = some (to_csv csv2)
    ∧ parseCsv (to_csv csv2) = some csv2
    ∧ (handle env3 (.ask q)
        (handle env2 (.upload (.ok s2)) ((handle env1 (.upload b1) st).2)).2).2.calls
      = (handle env2 (.upload (.ok s2)) ((handle env1 (.upload b1) st).2)).2.calls
        ++ [⟨OLLAMA_MODEL, promptOf (previewOf env3 csv2) q, 0⟩] := by
  have hfile : (handle env2 (.upload (.ok s2)) ((handle env1 (.upload b1) st).2)).2.file
      = some (to_csv csv2) := by
    simp [handle, upload_file, hparse, hm, hw]
  refine ⟨hfile, parseCsv_to_csv hwf, ?_⟩
  have hfile' : (upload_file env2 (.ok s2) (upload_file env1 b1 st).2).2.file
      = some (to_csv csv2) := hfile
  cases hg : get_ollama_response env3 (promptOf (previewOf env3 csv2) q) with
  | ok r => simp [handle, ask, install_missing_dependencies, hinst, hfile',
      parseCsv_to_csv hwf, hg]
  | error e => simp [handle, ask, install_missing_dependencies, hinst, hfile',
      parseCsv_to_csv hwf, hg]

theorem upload_overwrites_previous_witness :
    (handle defaultEnv (.upload (.ok sampleUpload))
        ((handle defaultEnv
          (.upload (.ok "date,product,quantity,total\n2023-12-31,Gadget,2,20.0"))
          emptySt).2)).2.file
      = some (to_csv sampleCsv) :=
  (upload_overwrites_previous defaultEnv defaultEnv defaultEnv
      (.ok "date,product,quantity,total\n2023-12-31,Gadget,2,20.0")
      sampleUpload "Qual o total?" sampleCsv emptySt
      (by decide) (by decide) rfl (by decide) rfl).1

/-- C6: every generate call the ask handler issues carries temperature 0,
and two sequential ask calls (against the same, deterministic, backend
environment) return the identical response. -/
theorem ask_temperature_zero_deterministic (env : Env) (q : String) (st : St) :
    (∀ call ∈ ((handle env (.ask q) st).2.calls).drop st.calls.length,
        call.temperature = 0)
    ∧ (handle env (.ask q) ((handle env (.ask q) st).2)).1 = (handle env (.ask q) st).1 := by
  cases hi : env.installResult with
  | error e =>
    exact ⟨by simp [handle, ask, install_missing_dependencies, hi, List.drop_length],
      by simp [handle, ask, install_missing_dependencies, hi]⟩
  | ok u =>
  cases hf : st.file with
  | none =>
    exact ⟨by simp [handle, ask, install_missing_dependencies, hi, hf, List.drop_length],
      by simp [handle, ask, install_missing_dependencies, hi, hf]⟩
  | some content =>
    cases hp : parseCsv content with
    | none =>
      exact ⟨by simp [handle, ask, install_missing_dependencies, hi, hf, hp, List.drop_length],
        by simp [handle, ask, install_missing_dependencies, hi, hf, hp]⟩
    | some df =>
      cases hg : get_ollama_response env (promptOf (previewOf env df) q) with
      | ok r =>
        exact ⟨by simp [handle, ask, install_missing_dependencies, hi, hf, hp, hg,
            List.drop_left],
          by simp [handle, ask, install_missing_dependencies, hi, hf, hp, hg]⟩
      | error e =>
        exact ⟨by simp [handle, ask, install_missing_dependencies, hi, hf, hp, hg,
            List.drop_left],
          by simp [handle, ask, install_missing_dependencies, hi, hf, hp, hg]⟩

theorem ask_temperature_zero_deterministic_witness :
    (⟨OLLAMA_MODEL, promptOf (previewOf defaultEnv sampleCsv) "Qual o total?", 0⟩
      : GenCall).temperature = 0 :=
  (ask_temperature_zero_deterministic defaultEnv "Qual o total?" loadedSt).1
    ⟨OLLAMA_MODEL, promptOf (previewOf defaultEnv sampleCsv) "Qual o total?", 0⟩
    (by decide)

/-- C7: the health endpoint always returns the three-field status object
— `csv_loaded` iff a file is persisted, `ollama_running` iff the backend
list call succeeds, `model_available` iff the expected model name appears
in the returned list — and never returns an error response: a failing
list call is swallowed into the two false fields. -/
theorem health_check_contract (env : Env) (st : St) :
    (∃ hs : HealthStatus, (handle env .health st).1 = .health hs
      ∧ hs.csv_loaded = st.file.isSome
      ∧ (hs.ollama_running = true ↔ ∃ ms, env.listModels = .ok ms)
      ∧ (hs.model_available = true ↔ ∃ ms, env.listModels = .ok ms ∧ OLLAMA_MODEL ∈ ms))
    ∧ ∀ code d, (handle env .health st).1 ≠ .error code d := by
  cases hl : env.listModels with
  | ok ms =>
    refine ⟨⟨⟨st.file.isSome, true, ms.any (fun m => m == OLLAMA_MODEL)⟩, ?_, rfl, ?_, ?_⟩, ?_⟩
    · simp [handle, health_check, hl]
    · simp
    · simp [List.any_eq_true]
    · intro code d
      simp [handle, health_check, hl]
  | error e =>
    refine ⟨⟨⟨st.file.isSome, false, false⟩, ?_, rfl, ?_, ?_⟩, ?_⟩
    · simp [handle, health_check, hl]
    · simp [hl]
    · simp [hl]
    · intro code d
      simp [handle, health_check, hl]

theorem health_check_contract_witness :
    (handle defaultEnv Request.health emptySt).1 ≠ .error 500 "boom" :=
  (health_check_contract defaultEnv emptySt).2 500 "boom"

/-- C8: a successful ask (its dependency-install step returning) prompts
the backend with the table's first five
rows rendered by the markdown grid renderer when tabulate is available
(else the plain text renderer), the prompt contains the preview, the
literal question, and the exact-values instruction, and the response
returns the question unchanged with the generated answer verbatim. -/
theorem ask_prompt_structure (env : Env) (st : St) (q content ans : String) (csv : Csv)
    (hinst : env.installResult = .ok ())
    (hfile : st.file = some content)
    (hparse : parseCsv content = some csv)
    (hgen : env.generate OLLAMA_MODEL (promptOf (previewOf env csv) q) 0 = .ok ans) :
    (handle env (.ask q) st).1 = .askOk q ans
    ∧ (handle env (.ask q) st).2.calls
      = st.calls ++ [⟨OLLAMA_MODEL, promptOf (previewOf env csv) q, 0⟩]
    ∧ previewOf env csv
      = (if env.tabulateAvailable then to_markdown (head csv) else to_string_render (head csv))
    ∧ head csv = ⟨csv.header, csv.rows.take 5⟩
    ∧ containsSub (promptOf (previewOf env csv) q) (previewOf env csv)
    ∧ containsSub (promptOf (previewOf env csv) q) q
    ∧ containsSub (promptOf (previewOf env csv) q)
        "Responda com valores exatos quando possível." := by
  refine ⟨?_, ?_, rfl, rfl, ?_, ?_, ?_⟩
  · simp [handle, ask, install_missing_dependencies, hinst, hfile, hparse,
      get_ollama_response, hgen]
  · simp [handle, ask, install_missing_dependencies, hinst, hfile, hparse,
      get_ollama_response, hgen]
  · exact ⟨"\n        Analise estes dados de vendas:\n        ",
      "\n\n        Pergunta: "
        ++ (q ++ "\n        Responda com valores exatos quando possível.\n        "),
      by simp only [promptOf, String.append_assoc]⟩
  · exact ⟨"\n        Analise estes dados de vendas:\n        "
        ++ (previewOf env csv ++ "\n\n        Pergunta: "),
      "\n        Responda com valores exatos quando possível.\n        ",
      by simp only [promptOf, String.append_assoc]⟩
  · refine ⟨"\n        Analise estes dados de vendas:\n        "
        ++ (previewOf env csv ++ ("\n\n        Pergunta: " ++ (q ++ "\n        "))),
      "\n        ", ?_⟩
    have hlit : ("\n        Responda com valores exatos quando possível.\n        " : String)
        = "\n        " ++ ("Responda com valores exatos quando possível." ++ "\n        ") := by
      decide
    simp only [promptOf]
    rw [hlit]
    simp only [String.append_assoc]

theorem ask_prompt_structure_witness :
    (handle defaultEnv (.ask "Qual o total?") loadedSt).1
      = .askOk "Qual o total?" "A resposta é 50.0" :=
  (ask_prompt_structure defaultEnv loadedSt "Qual o total?" (to_csv sampleCsv)
      "A resposta é 50.0" sampleCsv rfl rfl (by decide) rfl).1

/-- C9: neither the ask handler nor the health handler ever writes,
truncates or deletes the persisted file: the file component of the state
is identical before and after each of the two calls. -/
theorem ask_health_preserve_file (env : Env) (q : String) (st : St) :
    (handle env (.ask q) st).2.file = st.file
    ∧ (handle env .health st).2.file = st.file := by
  constructor
  · cases hi : env.installResult with
    | error e => simp [handle, ask, install_missing_dependencies, hi]
    | ok u =>
      cases hf : st.file with
      | none => simp [handle, ask, install_missing_dependencies, hi, hf]
      | some content =>
        cases hp : parseCsv content with
        | none => simp [handle, ask, install_missing_dependencies, hi, hf, hp]
        | some df =>
          cases hg : get_ollama_response env (promptOf (previewOf env df) q) with
          | ok r => simp [handle, ask, install_missing_dependencies, hi, hf, hp, hg]
          | error e => simp [handle, ask, install_missing_dependencies, hi, hf, hp, hg]
  · cases hl : env.listModels with
    | ok ms => simp [handle, health_check, hl]
    | error e => simp [handle, health_check, hl]

/-- C10: the upload handler is total over all inputs and environments:
it returns either the success object or a 400 error — every exception
(decode failure, parse failure, validation failure, write failure) is
mapped to status 400, never to a 500-class status. -/
theorem upload_success_or_400 (env : Env) (body : Except String String) (st : St) :
    (∃ cols, (handle env (.upload body) st).1 = .uploadOk "Arquivo salvo com sucesso" cols)
    ∨ ∃ d, (handle env (.upload body) st).1 = .error 400 d := by
  cases body with
  | error m => exact Or.inr ⟨m, by simp [handle, upload_file]⟩
  | ok s =>
    cases hp : parseCsv s with
    | none =>
      exact Or.inr ⟨"No columns to parse from file", by simp [handle, upload_file, hp]⟩
    | some df =>
      by_cases hm : missingOf df.header = []
      · cases hw : env.writeResult with
        | error m => exact Or.inr ⟨m, by simp [handle, upload_file, hp, hm, hw]⟩
        | ok u => exact Or.inl ⟨df.header, by simp [handle, upload_file, hp, hm, hw]⟩
      · exact Or.inr ⟨"Colunas faltando: " ++ setRepr (missingOf df.header),
          by simp [handle, upload_file, hp, hm]⟩

end Predify
